import Mathlib

/- Shallow embedding of the code-execution endpoints of the VipuDev backend
   (src/server/routes.ts): the Direct runner (POST /api/run, lines 446-480)
   and the containerized Project runner (POST /api/run-project, lines
   485-553).  JavaScript truthiness, Node posix path resolution, and the
   child_process delivery of results and failures are embedded explicitly;
   each definition mirrors the cited source lines. -/

/-- JavaScript `a || d` for an optional string field: `undefined`, `null` and
the empty string are falsy, so they select the default `d`. -/
def jsOrStr (a : Option String) (d : String) : String :=
  match a with
  | none => d
  | some s => if s = "" then d else s

/-- JavaScript `e?.code || 0` for an optional integer field: `undefined`,
`null` and `0` are falsy, so all of them yield `0`. -/
def jsOrZero (a : Option Int) : Int :=
  match a with
  | none => 0
  | some c => if c = 0 then 0 else c

/-- Split a character list on the posix separator `/` (the platform of
`os.tmpdir()` here; Node `path.join` splits and re-joins on it). -/
def splitOnSlash : List Char → List (List Char)
  | [] => [[]]
  | c :: cs =>
    let r := splitOnSlash cs
    if c = '/' then [] :: r
    else
      match r with
      | s :: rest => (c :: s) :: rest
      | [] => [[c]]

/-- Path segments of a character list: empty segments and `.` segments are
dropped by Node path normalization. -/
def pathSegs (cs : List Char) : List (List Char) :=
  (splitOnSlash cs).filter fun s => !(s == []) && !(s == ['.'])

/-- Resolve `..` segments against an absolute path the way Node
`path.normalize` does: `..` removes the previous segment, and `..` at the
root is dropped. -/
def resolveDots (segs : List (List Char)) : List (List Char) :=
  segs.foldl (fun acc s => if s = ['.', '.'] then acc.dropLast else acc ++ [s]) []

/-- Node posix `path.join(base, rel)` for an absolute `base`: concatenate
with a separator, then normalize (`.`/`..` resolution). -/
def joinAbs (base rel : String) : String :=
  ⟨'/' :: List.intercalate ['/'] (resolveDots (pathSegs (base.data ++ '/' :: rel.data)))⟩

/-- Does string `s` start with `pre`? -/
def strStartsWith (pre s : String) : Bool :=
  s.data.take pre.data.length == pre.data

/-- The sanitization applied to each Project-mode file path,
`(f.path || "").replace(/^[/\x5c]+/, "")`: strip every leading slash or
backslash character. -/
def stripLeadingSeps (s : String) : String :=
  ⟨s.data.dropWhile fun c => c = '/' || c = '\\'⟩

/-- The relative file name used for a Project-mode entry
(`safe || "main.js"` in the source): the sanitized path, or the fallback
"main.js" when sanitization leaves the empty string. -/
def destRel (p : Option String) : String :=
  let safe := stripLeadingSeps (jsOrStr p "")
  if safe = "" then "main.js" else safe

/-- Absolute destination path of a Project-mode file entry:
`path.join(tempDir, safe || "main.js")` (routes.ts line 505). -/
def destPath (tempDir : String) (p : Option String) : String :=
  joinAbs tempDir (destRel p)

/-- Language selection of the Direct runner (routes.ts line 453): strict
equality `language === "python"`; any other value, including absence and
case variants, is "javascript". -/
def directLang (language : Option String) : String :=
  if language = some "python" then "python" else "javascript"

/-- File extension of the Direct runner (routes.ts line 454). -/
def directExt (language : Option String) : String :=
  if directLang language = "python" then ".py" else ".js"

/-- Interpreter binary of the Direct runner (routes.ts line 455). -/
def directCmd (language : Option String) : String :=
  if directLang language = "python" then "python3" else "node"

/-- The error object Node `exec` passes to its callback: `code` is the exit
code (`null` when the child was killed by a signal) and `killed` records
whether `exec` itself killed the child. -/
structure ExecErr where
  code : Option Int
  killed : Bool
  deriving DecidableEq

/-- Modelled Node semantics of `exec(cmd, \x7b timeout: 8000 \x7d, cb)` when
the 8 s deadline elapses first: `exec` kills the child with the kill signal,
so the callback error has `killed = true` and `code = null`. -/
def timeoutExecErr : ExecErr := { code := none, killed := true }

/-- The result object answered by the Direct runner (routes.ts 467-472). -/
structure RunResult where
  stdout : String
  stderr : String
  exitCode : Int
  timedOut : Bool
  deriving DecidableEq

/-- Result assembly in the Direct runner callback:
`exitCode: error?.code || 0`, `timedOut: !!error?.killed`. -/
def assembleDirect (err : Option ExecErr) (out errOut : String) : RunResult :=
  { stdout := out
    stderr := errOut
    exitCode := jsOrZero (err.bind ExecErr.code)
    timedOut := (err.map ExecErr.killed).getD false }

/-- How a child process is launched: a single shell-interpreted command
string (Node `exec`) or a program with a discrete argument vector
(Node `spawn`). -/
inductive Launch
  | shellString (cmd : String)
  | argVector (prog : String) (args : List String)
  deriving DecidableEq

/-- Is the launch a program with a discrete argument vector? -/
def Launch.isArgVector : Launch → Bool
  | .argVector _ _ => true
  | .shellString _ => false

/-- The command string the Direct runner hands to `exec` (routes.ts 464):
the interpreter name and the double-quoted file path, interpolated into one
string. -/
def directExecString (cmd filePath : String) : String :=
  cmd ++ " \"" ++ filePath ++ "\""

/-- An HTTP response of the Direct runner endpoint. -/
inductive DirectResponse
  | badRequest (msg : String)
  | serverError (msg : String)
  | ok (r : RunResult)
  deriving DecidableEq

/-- Environment of one Direct-mode attempt: the scratch directory name, the
success of the two filesystem calls, and the arguments `exec` eventually
passes to its callback (error object and the accumulated stdout/stderr,
which `exec` delivers also when it killed the child on timeout and when the
command could not be started). -/
structure DirectEnv where
  tmpName : String
  mkdtempOk : Bool
  writeOk : Bool
  cbErr : Option ExecErr
  cbOut : String
  cbErrOut : String

/-- Observable outcome of one Direct-mode attempt. -/
structure DirectOutcome where
  response : DirectResponse
  dirCreated : Bool
  dirRemoved : Bool
  launch : Option Launch
  deriving DecidableEq

/-- The POST /api/run handler (routes.ts 446-480), stepped over an explicit
environment.  Validation is `if (!code)` (missing or empty string).  On the
exec path the callback assembles the result, answers, and then removes the
directory; the catch branch answers 500 and removes nothing. -/
def runDirectHandler (code language : Option String) (env : DirectEnv) : DirectOutcome :=
  if jsOrStr code "" = "" then
    { response := .badRequest "Code required", dirCreated := false,
      dirRemoved := false, launch := none }
  else if env.mkdtempOk then
    if env.writeOk then
      { response := .ok (assembleDirect env.cbErr env.cbOut env.cbErrOut)
        dirCreated := true
        dirRemoved := true
        launch := some (.shellString (directExecString (directCmd language)
          (joinAbs env.tmpName ("main" ++ directExt language)))) }
    else
      { response := .serverError "Failed to execute", dirCreated := true,
        dirRemoved := false, launch := none }
  else
    { response := .serverError "Failed to execute", dirCreated := false,
      dirRemoved := false, launch := none }

/-- A JSON value, for stating which keys a response object carries. -/
inductive JVal
  | jstr (s : String)
  | jint (n : Int)
  | jbool (b : Bool)
  | jnull
  deriving DecidableEq

/-- The JSON object sent by the Direct runner (routes.ts 467-472):
stdout, stderr, exitCode and timedOut. -/
def directResultJson (r : RunResult) : List (String × JVal) :=
  [("stdout", .jstr r.stdout), ("stderr", .jstr r.stderr),
   ("exitCode", .jint r.exitCode), ("timedOut", .jbool r.timedOut)]

/-- One entry of the `files` array of a Project-mode request; both fields may
be absent in the JSON body. -/
structure FileEntry where
  path : Option String
  content : Option String
  deriving DecidableEq

/-- The `files` field of a Project-mode request body: absent (or otherwise
falsy), present but not an array, or an array of entries. -/
inductive FilesField
  | absent
  | notArray
  | arr (l : List FileEntry)
  deriving DecidableEq

/-- JavaScript `String.prototype.toLowerCase` on the language tags in play
(ASCII), character by character. -/
def strToLower (s : String) : String :=
  ⟨s.data.map Char.toLower⟩

/-- Project-mode language normalization (routes.ts 495):
`(language || "node").toLowerCase()`. -/
def projectLang (language : Option String) : String :=
  strToLower (jsOrStr language "node")

/-- Project-mode container image (routes.ts 496). -/
def projectImage (language : Option String) : String :=
  if projectLang language = "python" then "python:3.11" else "node:18"

/-- Project-mode default command (routes.ts 497). -/
def projectDefaultCmd (language : Option String) : String :=
  if projectLang language = "python" then "python main.py" else "node main.js"

/-- The argument vector passed to `spawn("docker", dockerArgs)`
(routes.ts 510-527). -/
def dockerArgs (tempDir image cmdStr : String) : List String :=
  ["run", "--rm", "--network", "none", "--memory", "512m", "--cpus", "1",
   "-v", tempDir ++ ":/app", "-w", "/app", image, "bash", "-lc", cmdStr]

/-- What happens to the spawned docker child.  Modelled Node semantics: a
spawn-time failure (missing binary, daemon unreachable) is delivered
asynchronously through the child's error event, never as a synchronous
exception of `spawn`, so the handler's try/catch cannot observe it; the
handler registers no error listener (routes.ts 532-548), so the emit becomes
an uncaught exception and the close callback never runs.  Otherwise the
child runs: data events append chunks to the accumulators in order, and
close fires with the exit code (null when the child was killed), after the
kill timer fired first whenever the 20 s deadline elapsed. -/
inductive SpawnCase
  | errEvent
  | closes (outChunks errChunks : List String) (closeCode : Option Int) (deadlineKill : Bool)
  deriving DecidableEq

/-- Environment of one Project-mode attempt.  `writesOk = false` means the
first filesystem write after mkdtemp threw. -/
structure ProjectEnv where
  tempDir : String
  mkdtempOk : Bool
  writesOk : Bool
  spawnCase : SpawnCase

/-- An HTTP response of the Project runner endpoint. -/
inductive ProjectResponse
  | badRequest (msg : String)
  | serverError (msg : String)
  | ok (stdout stderr : String) (exitCode : Option Int) (imageUsed : String)
  deriving DecidableEq

/-- Observable outcome of one Project-mode attempt.  `response = none` means
the handler never answered (the uncaught error event path). -/
structure ProjectOutcome where
  response : Option ProjectResponse
  dirCreated : Bool
  dirRemoved : Bool
  writtenPaths : List String
  launch : Option Launch
  spawnCount : Nat
  uncaughtErrEvent : Bool
  deriving DecidableEq

/-- The POST /api/run-project handler (routes.ts 485-553), stepped over an
explicit environment.  Validation is `if (!files || !Array.isArray(files))`:
presence and array-ness only.  Each entry is sanitized and written, docker
is spawned once with `dockerArgs`, the close callback removes the directory
and answers, and the catch branch (synchronous throws only) removes the
directory when one was created and answers 500.  A spawn failure is an
unlistened error event: no response, no cleanup. -/
def runProjectHandler (files : FilesField) (language command : Option String)
    (env : ProjectEnv) : ProjectOutcome :=
  match files with
  | .absent =>
    { response := some (.badRequest "files[] required"), dirCreated := false,
      dirRemoved := false, writtenPaths := [], launch := none, spawnCount := 0,
      uncaughtErrEvent := false }
  | .notArray =>
    { response := some (.badRequest "files[] required"), dirCreated := false,
      dirRemoved := false, writtenPaths := [], launch := none, spawnCount := 0,
      uncaughtErrEvent := false }
  | .arr l =>
    if env.mkdtempOk then
      if env.writesOk then
        let written := l.map fun f => destPath env.tempDir f.path
        let image := projectImage language
        let cmdStr := jsOrStr command (projectDefaultCmd language)
        let args := dockerArgs env.tempDir image cmdStr
        match env.spawnCase with
        | .errEvent =>
          { response := none, dirCreated := true, dirRemoved := false,
            writtenPaths := written, launch := some (.argVector "docker" args),
            spawnCount := 1, uncaughtErrEvent := true }
        | .closes outChunks errChunks closeCode _deadlineKill =>
          { response := some (.ok (String.join outChunks) (String.join errChunks)
              closeCode image),
            dirCreated := true, dirRemoved := true, writtenPaths := written,
            launch := some (.argVector "docker" args), spawnCount := 1,
            uncaughtErrEvent := false }
      else
        { response := some (.serverError "Docker execution failed"),
          dirCreated := true, dirRemoved := true, writtenPaths := [],
          launch := none, spawnCount := 0, uncaughtErrEvent := false }
    else
      { response := some (.serverError "Docker execution failed"),
        dirCreated := false, dirRemoved := false, writtenPaths := [],
        launch := none, spawnCount := 0, uncaughtErrEvent := false }

/-- The JSON object sent by the Project runner on close (routes.ts 542-547):
stdout, stderr, exitCode and imageUsed — and no timedOut key. -/
def projectOkJson (stdout stderr : String) (exitCode : Option Int) (imageUsed : String) :
    List (String × JVal) :=
  [("stdout", .jstr stdout), ("stderr", .jstr stderr),
   ("exitCode", (exitCode.map JVal.jint).getD .jnull), ("imageUsed", .jstr imageUsed)]

/-- Boolean membership in a list of strings. -/
def listHas (a : String) : List String → Bool
  | [] => false
  | x :: rest => (x == a) || listHas a rest

/-- Do `a` and `b` occur adjacently (in this order) in the list? -/
def hasAdjacentPair (a b : String) : List String → Bool
  | x :: y :: rest => (x == a && y == b) || hasAdjacentPair a b (y :: rest)
  | _ => false

/-- Inversion for the Project handler: whenever it records a launch at all,
the launch is the docker client with exactly the `dockerArgs` vector built
from the environment's scratch directory, the selected image, and the
user-or-default command. -/
theorem project_launch_inv (files : FilesField) (language command : Option String)
    (env : ProjectEnv) (prog : String) (args : List String)
    (h : (runProjectHandler files language command env).launch = some (.argVector prog args)) :
    prog = "docker" ∧
    args = dockerArgs env.tempDir (projectImage language)
      (jsOrStr command (projectDefaultCmd language)) := by
  obtain ⟨t, mk, wr, sc⟩ := env
  cases files with
  | absent => simp [runProjectHandler] at h
  | notArray => simp [runProjectHandler] at h
  | arr l =>
    cases mk with
    | false => simp [runProjectHandler] at h
    | true =>
      cases wr with
      | false => simp [runProjectHandler] at h
      | true =>
        cases sc with
        | errEvent =>
          simp [runProjectHandler] at h
          exact ⟨h.1.symm, h.2.symm⟩
        | closes outChunks errChunks closeCode deadlineKill =>
          simp [runProjectHandler] at h
          exact ⟨h.1.symm, h.2.symm⟩

/-- Characters satisfying the predicate throughout are all dropped. -/
theorem dropWhile_eq_nil_of_all {p : Char → Bool} (l : List Char) (h : l.all p = true) :
    l.dropWhile p = [] := by
  induction l with
  | nil => rfl
  | cons c cs ih =>
    simp only [List.all_cons, Bool.and_eq_true] at h
    simp [List.dropWhile_cons, h.1, ih h.2]

/-- Sanitizing a path made only of separator characters leaves the empty
string. -/
theorem stripLeadingSeps_all_seps (s : String)
    (h : s.data.all (fun c => c = '/' || c = '\\') = true) :
    stripLeadingSeps s = "" := by
  unfold stripLeadingSeps
  rw [dropWhile_eq_nil_of_all s.data h]

/-- C1: the Project-mode sanitization strips only leading separators, so a
file entry with path "../../etc/passwd" in workspace
"/tmp/vipuproject-abc123" resolves to "/etc/passwd" — the resolved absolute
path does not have the workspace root as a prefix, and the handler records
the write there, outside the workspace. -/
theorem c1_traversal_escapes_workspace :
    destPath "/tmp/vipuproject-abc123" (some "../../etc/passwd") = "/etc/passwd" ∧
    strStartsWith "/tmp/vipuproject-abc123" "/etc/passwd" = false ∧
    (runProjectHandler (.arr [{ path := some "../../etc/passwd", content := some "owned" }])
        none none
        { tempDir := "/tmp/vipuproject-abc123", mkdtempOk := true, writesOk := true,
          spawnCase := .closes [] [] (some 0) false }).writtenPaths = ["/etc/passwd"] := by
  decide

/-- C2: workspace destruction is skipped on real control paths.  Direct
mode: when the source-file write throws after mkdtemp succeeded, the catch
branch answers 500 without removing the directory.  Project mode: when the
docker spawn fails, the unlistened error event means neither the close
callback nor the catch branch runs, so the directory survives there too. -/
theorem c2_cleanup_skipped_on_paths :
    (runDirectHandler (some "console.log(1)") none
        { tmpName := "/tmp/vipurun-a", mkdtempOk := true, writeOk := false,
          cbErr := none, cbOut := "", cbErrOut := "" }).dirCreated = true ∧
    (runDirectHandler (some "console.log(1)") none
        { tmpName := "/tmp/vipurun-a", mkdtempOk := true, writeOk := false,
          cbErr := none, cbOut := "", cbErrOut := "" }).dirRemoved = false ∧
    (runProjectHandler (.arr [{ path := some "main.js", content := some "" }]) none none
        { tempDir := "/tmp/vipuproject-b", mkdtempOk := true, writesOk := true,
          spawnCase := .errEvent }).dirCreated = true ∧
    (runProjectHandler (.arr [{ path := some "main.js", content := some "" }]) none none
        { tempDir := "/tmp/vipuproject-b", mkdtempOk := true, writesOk := true,
          spawnCase := .errEvent }).dirRemoved = false := by
  decide

/-- C3: when the 8 s Direct-mode deadline fires, the exec callback error is
killed = true with a null code, and `exitCode: error?.code || 0` surfaces 0
— exactly the normal-success exit value — alongside timedOut = true. -/
theorem c3_timeout_reports_success_exit :
    (runDirectHandler (some "while(true);") none
        { tmpName := "/tmp/vipurun-t", mkdtempOk := true, writeOk := true,
          cbErr := some timeoutExecErr, cbOut := "", cbErrOut := "" }).response =
      .ok { stdout := "", stderr := "", exitCode := 0, timedOut := true } ∧
    (directResultJson { stdout := "", stderr := "", exitCode := 0, timedOut := true }).lookup
      "exitCode" = some (.jint 0) := by
  decide

/-- C4 counterexample: `files: []` passes the
`!files || !Array.isArray(files)` check, so instead of an invalid-input
failure the handler creates a workspace and spawns the container. -/
theorem c4_empty_files_accepted :
    (runProjectHandler (.arr []) none none
        { tempDir := "/tmp/vipuproject-d", mkdtempOk := true, writesOk := true,
          spawnCase := .closes [] ["Error: Cannot find module"] (some 1) false }).response =
      some (.ok "" "Error: Cannot find module" (some 1) "node:18") ∧
    (runProjectHandler (.arr []) none none
        { tempDir := "/tmp/vipuproject-d", mkdtempOk := true, writesOk := true,
          spawnCase := .closes [] ["Error: Cannot find module"] (some 1) false }).spawnCount = 1 ∧
    (runProjectHandler (.arr []) none none
        { tempDir := "/tmp/vipuproject-d", mkdtempOk := true, writesOk := true,
          spawnCase := .closes [] ["Error: Cannot find module"] (some 1) false }).dirCreated =
      true := by
  decide

/-- C4 (amended): a Project-mode request whose files field is missing or not
an array is rejected with the 400 invalid-input response before any
workspace is created or file written, and no process is spawned; an empty
array, however, is accepted and proceeds to spawn. -/
theorem c4_missing_or_nonarray_rejected (files : FilesField)
    (language command : Option String) (env : ProjectEnv)
    (h : files = .absent ∨ files = .notArray) :
    (runProjectHandler files language command env).response =
      some (.badRequest "files[] required") ∧
    (runProjectHandler files language command env).dirCreated = false ∧
    (runProjectHandler files language command env).writtenPaths = [] ∧
    (runProjectHandler files language command env).spawnCount = 0 := by
  rcases h with rfl | rfl
  · exact ⟨rfl, rfl, rfl, rfl⟩
  · exact ⟨rfl, rfl, rfl, rfl⟩

/-- Witness for c4_missing_or_nonarray_rejected at a concrete request. -/
theorem c4_missing_or_nonarray_rejected_witness :
    (runProjectHandler .absent none none
        { tempDir := "/tmp/vipuproject-f", mkdtempOk := true, writesOk := true,
          spawnCase := .errEvent }).response = some (.badRequest "files[] required") ∧
    (runProjectHandler .absent none none
        { tempDir := "/tmp/vipuproject-f", mkdtempOk := true, writesOk := true,
          spawnCase := .errEvent }).dirCreated = false ∧
    (runProjectHandler .absent none none
        { tempDir := "/tmp/vipuproject-f", mkdtempOk := true, writesOk := true,
          spawnCase := .errEvent }).writtenPaths = [] ∧
    (runProjectHandler .absent none none
        { tempDir := "/tmp/vipuproject-f", mkdtempOk := true, writesOk := true,
          spawnCase := .errEvent }).spawnCount = 0 :=
  c4_missing_or_nonarray_rejected .absent none none
    { tempDir := "/tmp/vipuproject-f", mkdtempOk := true, writesOk := true,
      spawnCase := .errEvent } (Or.inl rfl)

/-- C5: when the container runtime cannot be invoked, the spawned child
emits an error event that has no listener, so the handler sends no response
at all — the failure is never reported to the caller as a spawn error —
while indeed only the one spawn is ever attempted. -/
theorem c5_spawn_failure_unreported :
    (runProjectHandler (.arr [{ path := some "main.js", content := some "x" }]) none none
        { tempDir := "/tmp/vipuproject-c", mkdtempOk := true, writesOk := true,
          spawnCase := .errEvent }).response = none ∧
    (runProjectHandler (.arr [{ path := some "main.js", content := some "x" }]) none none
        { tempDir := "/tmp/vipuproject-c", mkdtempOk := true, writesOk := true,
          spawnCase := .errEvent }).uncaughtErrEvent = true ∧
    (runProjectHandler (.arr [{ path := some "main.js", content := some "x" }]) none none
        { tempDir := "/tmp/vipuproject-c", mkdtempOk := true, writesOk := true,
          spawnCase := .errEvent }).spawnCount = 1 := by
  decide

/-- C6: whenever the Project handler launches the container, it runs the
docker client with the transient flag `--rm`, with `--network none`, a
`--memory 512m` cap and a `--cpus 1` share, mounts the scratch directory at
the fixed path /app (`-v tempDir:/app`, no access-mode suffix, hence
read-write), sets `-w /app` as the working directory, and ends with
`image bash -lc cmd`, where cmd is the user-supplied command or the language
default — the command is executed via a shell inside the container. -/
theorem c6_container_policy (files : FilesField) (language command : Option String)
    (env : ProjectEnv) (prog : String) (args : List String)
    (h : (runProjectHandler files language command env).launch = some (.argVector prog args)) :
    prog = "docker" ∧
    listHas "--rm" args = true ∧
    hasAdjacentPair "--network" "none" args = true ∧
    hasAdjacentPair "--memory" "512m" args = true ∧
    hasAdjacentPair "--cpus" "1" args = true ∧
    hasAdjacentPair "-v" (env.tempDir ++ ":/app") args = true ∧
    hasAdjacentPair "-w" "/app" args = true ∧
    (∃ pre, args = pre ++ [projectImage language, "bash", "-lc",
        jsOrStr command (projectDefaultCmd language)]) := by
  obtain ⟨hp, ha⟩ := project_launch_inv files language command env prog args h
  subst hp
  subst ha
  refine ⟨rfl, ?_, ?_, ?_, ?_, ?_, ?_,
    ⟨["run", "--rm", "--network", "none", "--memory", "512m", "--cpus", "1",
      "-v", env.tempDir ++ ":/app", "-w", "/app"], rfl⟩⟩ <;>
    simp [dockerArgs, listHas, hasAdjacentPair]

/-- Witness for c6_container_policy at a concrete request. -/
theorem c6_container_policy_witness :
    "docker" = "docker" ∧
    listHas "--rm" (dockerArgs "/tmp/vipuproject-w" (projectImage none)
      (jsOrStr none (projectDefaultCmd none))) = true ∧
    hasAdjacentPair "--network" "none" (dockerArgs "/tmp/vipuproject-w" (projectImage none)
      (jsOrStr none (projectDefaultCmd none))) = true ∧
    hasAdjacentPair "--memory" "512m" (dockerArgs "/tmp/vipuproject-w" (projectImage none)
      (jsOrStr none (projectDefaultCmd none))) = true ∧
    hasAdjacentPair "--cpus" "1" (dockerArgs "/tmp/vipuproject-w" (projectImage none)
      (jsOrStr none (projectDefaultCmd none))) = true ∧
    hasAdjacentPair "-v" ("/tmp/vipuproject-w" ++ ":/app")
      (dockerArgs "/tmp/vipuproject-w" (projectImage none)
        (jsOrStr none (projectDefaultCmd none))) = true ∧
    hasAdjacentPair "-w" "/app" (dockerArgs "/tmp/vipuproject-w" (projectImage none)
      (jsOrStr none (projectDefaultCmd none))) = true ∧
    (∃ pre, dockerArgs "/tmp/vipuproject-w" (projectImage none)
        (jsOrStr none (projectDefaultCmd none)) =
      pre ++ [projectImage none, "bash", "-lc", jsOrStr none (projectDefaultCmd none)]) :=
  c6_container_policy (.arr [{ path := some "main.js", content := some "x" }]) none none
    { tempDir := "/tmp/vipuproject-w", mkdtempOk := true, writesOk := true,
      spawnCase := .closes [] [] (some 0) false }
    "docker"
    (dockerArgs "/tmp/vipuproject-w" (projectImage none) (jsOrStr none (projectDefaultCmd none)))
    rfl

/-- C7 counterexample: the Project handler lowercases the language first, so
the value "Python" — which is not the string "python", hence unrecognized by
the claim — selects the Python image and default command instead of the
JavaScript path, while Direct mode, comparing strictly, selects node for the
very same value. -/
theorem c7_capital_python_not_javascript :
    some "Python" ≠ some "python" ∧
    projectImage (some "Python") = "python:3.11" ∧
    projectDefaultCmd (some "Python") = "python main.py" ∧
    directCmd (some "Python") = "node" ∧
    directExt (some "Python") = ".js" := by
  decide

/-- C7 (amended): Direct mode selects the Python interpreter exactly when
language equals "python" and the node/.js path for every other value;
Project mode first defaults a missing or empty language to "node" and
lowercases it, selecting the Python image exactly when the lowercased value
is "python" (so case variants of "python" also do) and node:18 with default
command node main.js otherwise. -/
theorem c7_language_selection (l : Option String)
    (hd : l ≠ some "python") (hp : projectLang l ≠ "python") :
    directCmd l = "node" ∧ directExt l = ".js" ∧
    projectImage l = "node:18" ∧ projectDefaultCmd l = "node main.js" ∧
    directCmd (some "python") = "python3" ∧ directExt (some "python") = ".py" ∧
    projectImage (some "python") = "python:3.11" ∧
    projectDefaultCmd (some "python") = "python main.py" := by
  refine ⟨?_, ?_, ?_, ?_, rfl, rfl, rfl, rfl⟩
  · simp [directCmd, directLang, hd]
  · simp [directExt, directLang, hd]
  · simp [projectImage, hp]
  · simp [projectDefaultCmd, hp]

/-- Witness for c7_language_selection at language "ruby". -/
theorem c7_language_selection_witness :
    directCmd (some "ruby") = "node" ∧ directExt (some "ruby") = ".js" ∧
    projectImage (some "ruby") = "node:18" ∧
    projectDefaultCmd (some "ruby") = "node main.js" ∧
    directCmd (some "python") = "python3" ∧ directExt (some "python") = ".py" ∧
    projectImage (some "python") = "python:3.11" ∧
    projectDefaultCmd (some "python") = "python main.py" :=
  c7_language_selection (some "ruby") (by decide) (by decide)

/-- C8 counterexample: a Project-mode run killed at the 20 s deadline still
answers from the close callback with the plain result object; that object
has no timedOut key at all, so the run yields no result with
timedOut = true. -/
theorem c8_project_result_lacks_timedout :
    (runProjectHandler (.arr [{ path := some "main.js", content := some "x" }]) none none
        { tempDir := "/tmp/vipuproject-e", mkdtempOk := true, writesOk := true,
          spawnCase := .closes ["hello"] [] none true }).response =
      some (.ok "hello" "" none "node:18") ∧
    (projectOkJson "hello" "" none "node:18").lookup "timedOut" = none := by
  decide

/-- C8 (amended): output captured before the deadline kill is returned in
both modes — a Direct-mode run killed at the deadline answers with the
accumulated stdout and stderr and timedOut = true, and a Project-mode run
killed at the deadline answers with the concatenated stream chunks — but the
Project-mode result carries no timedOut field. -/
theorem c8_captured_output_returned (code : String) (hc : code ≠ "")
    (tmp out errOut : String) (language : Option String)
    (files : List FileEntry) (tempDir : String)
    (outChunks errChunks : List String) (closeCode : Option Int) :
    (runDirectHandler (some code) language
        { tmpName := tmp, mkdtempOk := true, writeOk := true,
          cbErr := some timeoutExecErr, cbOut := out, cbErrOut := errOut }).response =
      .ok { stdout := out, stderr := errOut, exitCode := 0, timedOut := true } ∧
    (runProjectHandler (.arr files) language none
        { tempDir := tempDir, mkdtempOk := true, writesOk := true,
          spawnCase := .closes outChunks errChunks closeCode true }).response =
      some (.ok (String.join outChunks) (String.join errChunks) closeCode
        (projectImage language)) ∧
    (∀ s e c i, (projectOkJson s e c i).lookup "timedOut" = none) := by
  refine ⟨?_, ?_, fun s e c i => rfl⟩
  · simp [runDirectHandler, jsOrStr, hc, assembleDirect, timeoutExecErr, jsOrZero]
  · simp [runProjectHandler]

/-- Witness for c8_captured_output_returned at a concrete run. -/
theorem c8_captured_output_returned_witness :
    (runDirectHandler (some "spin") none
        { tmpName := "/tmp/vipurun-h", mkdtempOk := true, writeOk := true,
          cbErr := some timeoutExecErr, cbOut := "hello\n", cbErrOut := "" }).response =
      .ok { stdout := "hello\n", stderr := "", exitCode := 0, timedOut := true } ∧
    (runProjectHandler (.arr [{ path := some "main.js", content := some "x" }]) none none
        { tempDir := "/tmp/vipuproject-h", mkdtempOk := true, writesOk := true,
          spawnCase := .closes ["hello\n"] [] none true }).response =
      some (.ok (String.join ["hello\n"]) (String.join []) none (projectImage none)) ∧
    (∀ s e c i, (projectOkJson s e c i).lookup "timedOut" = none) :=
  c8_captured_output_returned "spin" (by decide) "/tmp/vipurun-h" "hello\n" "" none
    [{ path := some "main.js", content := some "x" }] "/tmp/vipuproject-h"
    ["hello\n"] [] none

/-- C9 counterexample: the Direct runner launches via exec with the single
shell-interpreted string made of the interpreter and the quoted file path,
not as a program with a discrete argument vector. -/
theorem c9_direct_uses_shell_string :
    (runDirectHandler (some "1") none
        { tmpName := "/tmp/vipurun-q", mkdtempOk := true, writeOk := true,
          cbErr := none, cbOut := "", cbErrOut := "" }).launch =
      some (.shellString "node \"/tmp/vipurun-q/main.js\"") ∧
    Launch.isArgVector (.shellString "node \"/tmp/vipurun-q/main.js\"") = false := by
  decide

/-- C9 (amended): the Direct runner executes through a shell-interpreted
command string — the interpreter name and the double-quoted file path
concatenated and handed to exec — while the Project runner spawns the docker
client itself with a discrete argument vector (shell interpretation there
happens inside the container via bash -lc). -/
theorem c9_launch_shapes (code : String) (hc : code ≠ "")
    (language : Option String) (env : DirectEnv)
    (hm : env.mkdtempOk = true) (hw : env.writeOk = true) :
    (runDirectHandler (some code) language env).launch =
      some (.shellString (directExecString (directCmd language)
        (joinAbs env.tmpName ("main" ++ directExt language)))) ∧
    (∀ files lang cmd penv prog args,
      (runProjectHandler files lang cmd penv).launch = some (.argVector prog args) →
        prog = "docker") := by
  refine ⟨?_, fun files lang cmd penv prog args h =>
    (project_launch_inv files lang cmd penv prog args h).1⟩
  simp [runDirectHandler, jsOrStr, hc, hm, hw]

/-- Witness for c9_launch_shapes at a concrete run. -/
theorem c9_launch_shapes_witness :
    (runDirectHandler (some "2+2") none
        { tmpName := "/tmp/vipurun-k", mkdtempOk := true, writeOk := true,
          cbErr := none, cbOut := "", cbErrOut := "" }).launch =
      some (.shellString (directExecString (directCmd none)
        (joinAbs "/tmp/vipurun-k" ("main" ++ directExt none)))) ∧
    (∀ files lang cmd penv prog args,
      (runProjectHandler files lang cmd penv).launch = some (.argVector prog args) →
        prog = "docker") :=
  c9_launch_shapes "2+2" (by decide) none
    { tmpName := "/tmp/vipurun-k", mkdtempOk := true, writeOk := true,
      cbErr := none, cbOut := "", cbErrOut := "" } rfl rfl

/-- C10: a Project-mode entry whose path is absent, empty, or made only of
leading separator characters sanitizes to the empty string and falls back to
the fixed name "main.js": the entry is not rejected — its content is written
at main.js directly under the workspace root and the run proceeds. -/
theorem c10_fallback_mainjs (p : Option String) (content : Option String)
    (tempDir : String)
    (h : p = none ∨ p = some "" ∨
      ∃ s, p = some s ∧ s.data.all (fun c => c = '/' || c = '\\') = true) :
    destRel p = "main.js" ∧
    (runProjectHandler (.arr [{ path := p, content := content }]) none none
        { tempDir := tempDir, mkdtempOk := true, writesOk := true,
          spawnCase := .closes [] [] (some 0) false }).writtenPaths =
      [joinAbs tempDir "main.js"] ∧
    (runProjectHandler (.arr [{ path := p, content := content }]) none none
        { tempDir := tempDir, mkdtempOk := true, writesOk := true,
          spawnCase := .closes [] [] (some 0) false }).response =
      some (.ok "" "" (some 0) "node:18") := by
  have hrel : destRel p = "main.js" := by
    rcases h with rfl | rfl | ⟨s, rfl, hall⟩
    · rfl
    · rfl
    · by_cases hs : s = ""
      · subst hs; rfl
      · simp [destRel, jsOrStr, hs, stripLeadingSeps_all_seps s hall]
  refine ⟨hrel, ?_, ?_⟩
  · simp [runProjectHandler, destPath, hrel]
  · rfl

/-- Witness for c10_fallback_mainjs at the all-separators path "///". -/
theorem c10_fallback_mainjs_witness :
    destRel (some "///") = "main.js" ∧
    (runProjectHandler (.arr [{ path := some "///", content := some "x" }]) none none
        { tempDir := "/tmp/vipuproject-m", mkdtempOk := true, writesOk := true,
          spawnCase := .closes [] [] (some 0) false }).writtenPaths =
      [joinAbs "/tmp/vipuproject-m" "main.js"] ∧
    (runProjectHandler (.arr [{ path := some "///", content := some "x" }]) none none
        { tempDir := "/tmp/vipuproject-m", mkdtempOk := true, writesOk := true,
          spawnCase := .closes [] [] (some 0) false }).response =
      some (.ok "" "" (some 0) "node:18") :=
  c10_fallback_mainjs (some "///") (some "x") "/tmp/vipuproject-m"
    (Or.inr (Or.inr ⟨"///", rfl, by decide⟩))
